import Mathlib

/-!
Verification of the bounding-box watcher of `meshroom/nodes/aliceVision/Meshing.py`
(`boundingBoxMonitor`, `BoundingBoxThread.run`, `BoundingBoxThread.updateBoundingBox`,
`BoundingBoxThread.stopRequest`, `Meshing.processChunk`).

The embedding models:
  * the result artifact (`boundingBox.txt`) as a presence bit, a modification time
    and the list of its tokens (`content.strip().splitlines()`), each token carrying
    the value Python's `float` would parse it to, or nothing when `float` would
    raise `ValueError`;
  * `NodeParameterTree` (`node.useBoundingBox.value`, `node.boundingBox.value`,
    `node.automaticBBoxValid`) with the bounding box as the nested list of numeric
    leaves, in declaration order: translation (x,y,z), rotation (x,y,z), scale (x,y,z);
  * `updateBoundingBox` including Python's in-place mutation semantics: on an
    `IndexError` at `data[i]` the fields already assigned stay assigned;
  * the poll loop `run` driven by an explicit finite schedule: for each iteration, the
    artifact state seen by the check and whether `self._stopFlag.wait(self.interval)`
    returned `True`; plus the liveness answer and artifact state for the teardown check;
  * the context manager `boundingBoxMonitor` as a trace semantics over a world
    holding an event log, with the wrapped operation as an explicit body function
    and `try`/`finally` encoded by unconditional sequencing of the release code.

Numeric values and timestamps are rationals (Python floats, no rounding concerns
arise: the watcher copies values verbatim).
-/

namespace Meshing

/-- A token of the artifact file: `some q` when Python's `float` parses it to `q`,
`none` when `float` raises `ValueError` on it. -/
abbrev Token := Option ℚ

/-- The on-disk artifact `boundingBox.txt` as the watcher observes it at one instant:
whether `os.path.exists` holds, `os.path.getmtime`, and the token list obtained from
`stream.read().strip().splitlines()`. -/
structure Artifact where
  present : Bool
  mtime : ℚ
  tokens : List Token
deriving Repr, DecidableEq

/-- The slice of the node's parameter tree the watcher touches:
`node.useBoundingBox.value`, `node.boundingBox.value` (nested groups of numeric
leaves, in declaration order translation xyz, rotation xyz, scale xyz) and the
`node.automaticBBoxValid` flag. -/
structure NodeParameterTree where
  useBoundingBox : Bool
  boundingBox : List (List ℚ)
  automaticBBoxValid : Bool
deriving Repr, DecidableEq

/-- Python exceptions `updateBoundingBox` can raise: `ValueError` from `float`,
`IndexError` from `data[i]`. Neither is in the tuple caught by `run`'s
`except (KeyboardInterrupt, SystemError, GeneratorExit, psutil.NoSuchProcess)`. -/
inductive PyError
  | valueError
  | indexError
deriving Repr, DecidableEq

/-- Outcome of one `updateBoundingBox` call: a normal return with its boolean, or a
raised exception. -/
inductive Outcome
  | ret (b : Bool)
  | exc (e : PyError)
deriving Repr, DecidableEq

/-- `data = list(map(float, stream.read().strip().splitlines()))`: the whole token
list is converted eagerly, before the write loop; the first unparsable token makes
the conversion raise, yielding no list at all. -/
def parseFloats : List Token → Option (List ℚ)
  | [] => some []
  | tok :: rest =>
    match tok with
    | none => none
    | some v =>
      match parseFloats rest with
      | none => none
      | some vs => some (v :: vs)

/-- Inner loop `for x in vec.value: x.value = data[i]; i += 1` over one sub-group.
Returns the updated leaves, the next index, and whether the loop completed; on
`IndexError` (`data[i]` out of range) the leaves already assigned keep their new
values and the remaining leaves keep their old ones. -/
def writeVec : List ℚ → List ℚ → Nat → List ℚ × Nat × Bool
  | [], _, i => ([], i, true)
  | x :: xs, data, i =>
    match data.get? i with
    | none => (x :: xs, i, false)
    | some v =>
      let r := writeVec xs data (i + 1)
      (v :: r.1, r.2.1, r.2.2)

/-- Outer loop `for vec in self.node.boundingBox.value` chaining `writeVec` over the
sub-groups; aborts at the first sub-group whose write raised, leaving later
sub-groups untouched. -/
def writeVecs : List (List ℚ) → List ℚ → Nat → List (List ℚ) × Nat × Bool
  | [], _, i => ([], i, true)
  | vec :: rest, data, i =>
    let r := writeVec vec data i
    if r.2.2 then
      let r2 := writeVecs rest data r.2.1
      (r.1 :: r2.1, r2.2.1, r2.2.2)
    else (r.1 :: rest, r.2.1, false)

/-- `BoundingBoxThread.updateBoundingBox`, as a function of the artifact currently on
disk, `self.startTime`, and the current tree. Mirrors:
`if not os.path.exists(file) or os.path.getmtime(file) < self.startTime: return False`;
then the eager float conversion; then the nested write loop; then
`self.node.automaticBBoxValid = True; return True`. A raised exception carries the
tree in its (possibly partially mutated) state at the raise point. -/
def updateBoundingBox (art : Artifact) (startTime : ℚ) (t : NodeParameterTree) :
    NodeParameterTree × Outcome :=
  if art.present = false ∨ art.mtime < startTime then (t, .ret false)
  else
    match parseFloats art.tokens with
    | none => (t, .exc .valueError)
    | some data =>
      let r := writeVecs t.boundingBox data 0
      if r.2.2 then
        ({ t with boundingBox := r.1, automaticBBoxValid := true }, .ret true)
      else ({ t with boundingBox := r.1 }, .exc .indexError)

/-- Oracle for one iteration of the poll loop: the artifact state the check observes,
and whether `self._stopFlag.wait(self.interval)` returned `True` (the stop signal
fired during the timed wait). -/
structure PollEnv where
  art : Artifact
  stopDuringWait : Bool
deriving Repr, DecidableEq

/-- Oracle for the teardown path: the answer of `self.parentProc.is_running()` and the
artifact state the final check would observe. -/
structure FinalEnv where
  parentAlive : Bool
  art : Artifact
deriving Repr, DecidableEq

/-- One observable event of the loop: a call to `updateBoundingBox`; `isFinal` marks
the teardown call made after the stop signal fired. -/
inductive Event
  | check (isFinal : Bool)
deriving Repr, DecidableEq

/-- How `run` left the loop. -/
inductive RunExit
  /-- `return` at `if updated or self.checkOnce`, with the value of `updated`. -/
  | returned (updated : Bool)
  /-- `return` on the stop path, after the liveness test and optional final check. -/
  | stopped
  /-- An exception escaped `run` (it is not in the caught tuple). -/
  | uncaught (e : PyError)
  /-- The finite schedule ran out while the loop would have kept polling. -/
  | outOfSchedule
deriving Repr, DecidableEq

/-- Result of a `run`: final tree, chronological list of check events, exit kind. -/
structure RunResult where
  tree : NodeParameterTree
  events : List Event
  exit : RunExit
deriving Repr, DecidableEq

/-- The body of `BoundingBoxThread.run` after `self.startTime` is set: the
`while True` loop, one schedule entry per iteration. Mirrors
`updated = self.updateBoundingBox()`, `if updated or self.checkOnce: return`,
`if self._stopFlag.wait(self.interval): if self.parentProc.is_running():
self.updateBoundingBox(); return`. `ValueError` and `IndexError` are not in the
`except` tuple, so they escape. -/
def runLoop (checkOnce : Bool) (startTime : ℚ) (fe : FinalEnv) :
    NodeParameterTree → List PollEnv → RunResult
  | t, [] => ⟨t, [], .outOfSchedule⟩
  | t, e :: rest =>
    match updateBoundingBox e.art startTime t with
    | (t', .exc err) => ⟨t', [.check false], .uncaught err⟩
    | (t', .ret true) => ⟨t', [.check false], .returned true⟩
    | (t', .ret false) =>
      if checkOnce then ⟨t', [.check false], .returned false⟩
      else if e.stopDuringWait then
        if fe.parentAlive then
          match updateBoundingBox fe.art startTime t' with
          | (t'', .exc err) => ⟨t'', [.check false, .check true], .uncaught err⟩
          | (t'', .ret _) => ⟨t'', [.check false, .check true], .stopped⟩
        else ⟨t', [.check false], .stopped⟩
      else
        let r := runLoop checkOnce startTime fe t' rest
        ⟨r.tree, .check false :: r.events, r.exit⟩

/-- `BoundingBoxThread.run`: sets
`self.startTime = time.time() if not self.checkOnce else -1` (`now` stands for
`time.time()` at loop start) and enters the loop. -/
def run (checkOnce : Bool) (now : ℚ) (fe : FinalEnv) (t : NodeParameterTree)
    (envs : List PollEnv) : RunResult :=
  runLoop checkOnce (if checkOnce then -1 else now) fe t envs

/-- `self._stopFlag`, a `threading.Event`. -/
structure StopFlag where
  isSet : Bool
deriving Repr, DecidableEq

/-- `BoundingBoxThread.stopRequest`: `self._stopFlag.set()`. -/
def stopRequest (_f : StopFlag) : StopFlag := ⟨true⟩

/-- Number of teardown checks in a trace. -/
def finalChecks : List Event → Nat
  | [] => 0
  | .check true :: rest => finalChecks rest + 1
  | .check false :: rest => finalChecks rest

/-- Observable lifecycle events around `boundingBoxMonitor`: the thread calls, and
opaque events of the wrapped operation (indexed by a number). -/
inductive GuardEvent
  | threadStart
  | bodyEvent (n : Nat)
  | threadStopRequest
  | threadJoin
deriving Repr, DecidableEq

/-- How the wrapped operation (the `with` body, i.e.
`super(Meshing, self).processChunk(chunk)`) left the block: normal return, a raised
exception (indexed by a number), or cancellation thrown into the block. -/
inductive OpOutcome
  | normal
  | raised (e : Nat)
  | canceled
deriving Repr, DecidableEq

/-- The state the guard sequences over: an ordered event log and the node's
parameter tree. -/
structure GuardWorld where
  log : List GuardEvent
  tree : NodeParameterTree
deriving Repr, DecidableEq

/-- `bboxThread.start()` as a lifecycle event. -/
def startThread (w : GuardWorld) : GuardWorld :=
  { w with log := w.log ++ [.threadStart] }

/-- `bboxThread.stopRequest()` as a lifecycle event. -/
def stopRequestThread (w : GuardWorld) : GuardWorld :=
  { w with log := w.log ++ [.threadStopRequest] }

/-- `bboxThread.join()` as a lifecycle event. -/
def joinThread (w : GuardWorld) : GuardWorld :=
  { w with log := w.log ++ [.threadJoin] }

/-- The context manager `boundingBoxMonitor(node)`, as used by
`Meshing.processChunk` (`with boundingBoxMonitor(chunk.node): ...`). Mirrors:
`bboxThread = None; try: if not node.useBoundingBox.value: bboxThread =
BoundingBoxThread(node, checkOnce); bboxThread.start(); yield bboxThread; finally:
if bboxThread is not None: bboxThread.stopRequest(); bboxThread.join()`.
`useBoundingBoxValue` is `node.useBoundingBox.value`; `body` is the wrapped
operation, run at the `yield`; the `finally` block runs unconditionally, whatever
outcome the body ends with, and that outcome is what the `with` statement delivers
to its caller. Returns the final world, whether a watcher was created
(`bboxThread is not None`), and the delivered outcome. -/
def boundingBoxMonitor (useBoundingBoxValue : Bool)
    (body : GuardWorld → GuardWorld × OpOutcome) (w : GuardWorld) :
    GuardWorld × Bool × OpOutcome :=
  let p : GuardWorld × Bool :=
    if useBoundingBoxValue = false then (startThread w, true) else (w, false)
  let b := body p.1
  let w3 := if p.2 then joinThread (stopRequestThread b.1) else b.1
  (w3, p.2, b.2)

/-- A `boundingBox.txt` holding 8 numeric lines `1.0 .. 8.0` with modification time 1. -/
def artEight : Artifact :=
  ⟨true, 1, [some 1, some 2, some 3, some 4, some 5, some 6, some 7, some 8]⟩

/-- The parameter tree with the schema's default values: translation `(0,0,0)`,
rotation `(0,0,0)`, scale `(1,1,1)`, `useBoundingBox = False`, flag unset. -/
def defaultTree : NodeParameterTree :=
  ⟨false, [[0, 0, 0], [0, 0, 0], [1, 1, 1]], false⟩

/- ------------------------------------------------------------------ -/
/- Helper lemmas                                                       -/
/- ------------------------------------------------------------------ -/

theorem parseFloats_map_some (l : List ℚ) : parseFloats (l.map some) = some l := by
  induction l with
  | nil => rfl
  | cons x xs ih => simp [parseFloats, ih]

theorem parseFloats_of_none_mem (toks : List Token) (h : none ∈ toks) :
    parseFloats toks = none := by
  induction toks with
  | nil => cases h
  | cons tok rest ih =>
    rcases List.mem_cons.1 h with h1 | h1
    · rw [← h1]; rfl
    · cases tok with
      | none => rfl
      | some v => simp [parseFloats, ih h1]

/-- A fresh artifact of exactly 9 numeric tokens is applied: the 9 values land in
the three sub-groups in file order and the validity flag is set. -/
theorem updateBoundingBox_nine (mt st : ℚ) (h : st ≤ mt)
    (v1 v2 v3 v4 v5 v6 v7 v8 v9 a1 a2 a3 b1 b2 b3 c1 c2 c3 : ℚ) (u valid : Bool) :
    updateBoundingBox
      ⟨true, mt, [some v1, some v2, some v3, some v4, some v5, some v6, some v7, some v8, some v9]⟩
      st ⟨u, [[a1, a2, a3], [b1, b2, b3], [c1, c2, c3]], valid⟩
      = (⟨u, [[v1, v2, v3], [v4, v5, v6], [v7, v8, v9]], true⟩, .ret true) := by
  simp [updateBoundingBox, not_lt.2 h, parseFloats, writeVecs, writeVec]

/-- A not-ready result of `updateBoundingBox` leaves the tree untouched. -/
theorem updateBoundingBox_not_ready (art : Artifact) (st : ℚ) (t : NodeParameterTree)
    (h : art.present = false ∨ art.mtime < st) :
    updateBoundingBox art st t = (t, .ret false) := by
  simp [updateBoundingBox, h]

/-- At most one teardown check occurs per loop execution, whatever the schedule. -/
theorem finalChecks_runLoop_le_one (co : Bool) (st : ℚ) (fe : FinalEnv)
    (envs : List PollEnv) : ∀ t, finalChecks (runLoop co st fe t envs).events ≤ 1 := by
  induction envs with
  | nil => intro t; simp [runLoop, finalChecks]
  | cons e rest ih =>
    intro t
    rcases h1 : updateBoundingBox e.art st t with ⟨t1, o1⟩
    cases o1 with
    | exc err => simp [runLoop, h1, finalChecks]
    | ret b =>
      cases b with
      | true => simp [runLoop, h1, finalChecks]
      | false =>
        by_cases hco : co = true
        · simp [runLoop, h1, hco, finalChecks]
        · by_cases hs : e.stopDuringWait = true
          · by_cases ha : fe.parentAlive = true
            · rcases h2 : updateBoundingBox fe.art st t1 with ⟨t2, o2⟩
              cases o2 <;> simp [runLoop, h1, hco, hs, ha, h2, finalChecks]
            · simp [runLoop, h1, hco, hs, ha, finalChecks]
          · simpa [runLoop, h1, hco, hs, finalChecks] using ih t1

/- ------------------------------------------------------------------ -/
/- Claim theorems                                                      -/
/- ------------------------------------------------------------------ -/

/-- C1: a valid artifact of exactly 9 values with modification time at or after the
start baseline is parsed by the continuous-mode watcher; the 9 values are
bulk-written into the translation/rotation/scale sub-groups in the documented fixed
order, the validity flag is set true, and the loop terminates on that check; the
final tree carries the written values and the flag. -/
theorem c1_valid_artifact_applied (now mt : ℚ) (hmt : now ≤ mt)
    (v1 v2 v3 v4 v5 v6 v7 v8 v9 a1 a2 a3 b1 b2 b3 c1 c2 c3 : ℚ)
    (u valid w : Bool) (fe : FinalEnv) (rest : List PollEnv) :
    run false now fe ⟨u, [[a1, a2, a3], [b1, b2, b3], [c1, c2, c3]], valid⟩
      (⟨⟨true, mt, [some v1, some v2, some v3, some v4, some v5, some v6, some v7,
          some v8, some v9]⟩, w⟩ :: rest)
      = ⟨⟨u, [[v1, v2, v3], [v4, v5, v6], [v7, v8, v9]], true⟩,
          [.check false], .returned true⟩ := by
  simp [run, runLoop, updateBoundingBox_nine mt now hmt]

/-- Witness for C1 at a concrete input. -/
theorem c1_valid_artifact_applied_witness :
    run false 0 ⟨true, ⟨false, 0, []⟩⟩ defaultTree
      [⟨⟨true, 1, [some 1, some 2, some 3, some 4, some 5, some 6, some 7,
          some 8, some 9]⟩, false⟩]
      = ⟨⟨false, [[1, 2, 3], [4, 5, 6], [7, 8, 9]], true⟩,
          [.check false], .returned true⟩ :=
  c1_valid_artifact_applied 0 1 (by norm_num) 1 2 3 4 5 6 7 8 9
    0 0 0 0 0 0 1 1 1 false false false ⟨true, ⟨false, 0, []⟩⟩ []

/-- C4: an artifact whose modification time is strictly before the start baseline is
not applied on the first check of the continuous-mode watcher — that check returns
not-ready and leaves the tree untouched, and the loop proceeds to waiting; in
general, a check can produce anything other than a not-ready return only when the
artifact is present with modification time at or after the baseline. -/
theorem c4_stale_artifact_rejected (now mt : ℚ) (hmt : mt < now)
    (toks : List Token) (p : Bool) (fe : FinalEnv) (t : NodeParameterTree)
    (rest : List PollEnv) :
    (updateBoundingBox ⟨p, mt, toks⟩ now t = (t, .ret false)) ∧
    (runLoop false now fe t (⟨⟨p, mt, toks⟩, false⟩ :: rest) =
      ⟨(runLoop false now fe t rest).tree,
        .check false :: (runLoop false now fe t rest).events,
        (runLoop false now fe t rest).exit⟩) ∧
    (∀ (art : Artifact) (u : NodeParameterTree),
      (updateBoundingBox art now u).2 ≠ .ret false →
        art.present = true ∧ now ≤ art.mtime) := by
  have h1 : updateBoundingBox ⟨p, mt, toks⟩ now t = (t, .ret false) :=
    updateBoundingBox_not_ready _ _ _ (Or.inr hmt)
  refine ⟨h1, ?_, ?_⟩
  · simp [runLoop, h1]
  · intro art u h
    by_cases hc : art.present = false ∨ art.mtime < now
    · exact absurd (by rw [updateBoundingBox_not_ready art now u hc]) h
    · push_neg at hc
      refine ⟨?_, hc.2⟩
      cases hp : art.present with
      | false => exact absurd hp hc.1
      | true => rfl

/-- Witness for C4 at a concrete input. -/
theorem c4_stale_artifact_rejected_witness :
    (updateBoundingBox ⟨true, 5, [some 1]⟩ 10 defaultTree = (defaultTree, .ret false)) ∧
    (runLoop false 10 ⟨true, artEight⟩ defaultTree [⟨⟨true, 5, [some 1]⟩, false⟩] =
      ⟨(runLoop false 10 ⟨true, artEight⟩ defaultTree []).tree,
        .check false :: (runLoop false 10 ⟨true, artEight⟩ defaultTree []).events,
        (runLoop false 10 ⟨true, artEight⟩ defaultTree []).exit⟩) ∧
    (∀ (art : Artifact) (u : NodeParameterTree),
      (updateBoundingBox art 10 u).2 ≠ .ret false →
        art.present = true ∧ (10 : ℚ) ≤ art.mtime) :=
  c4_stale_artifact_rejected 10 5 (by norm_num) [some 1] true
    ⟨true, artEight⟩ defaultTree []

/-- C9: when some token is not a valid floating-point literal the eager conversion
of the whole token list fails before the first write, so the tree — every field and
the validity flag — is returned unchanged, whatever the artifact's presence and
timestamp. -/
theorem c9_bad_token_atomic (art : Artifact) (st : ℚ) (t : NodeParameterTree)
    (hbad : none ∈ art.tokens) :
    (updateBoundingBox art st t).1 = t ∧
    ((updateBoundingBox art st t).2 = .ret false ∨
      (updateBoundingBox art st t).2 = .exc .valueError) := by
  by_cases hc : art.present = false ∨ art.mtime < st
  · rw [updateBoundingBox_not_ready art st t hc]
    exact ⟨rfl, Or.inl rfl⟩
  · have : updateBoundingBox art st t = (t, .exc .valueError) := by
      simp [updateBoundingBox, hc, parseFloats_of_none_mem art.tokens hbad]
    rw [this]
    exact ⟨rfl, Or.inr rfl⟩

/-- Witness for C9 at a concrete input. -/
theorem c9_bad_token_atomic_witness :
    (updateBoundingBox ⟨true, 1, [some 1, none, some 3]⟩ 0 defaultTree).1 = defaultTree ∧
    ((updateBoundingBox ⟨true, 1, [some 1, none, some 3]⟩ 0 defaultTree).2 = .ret false ∨
      (updateBoundingBox ⟨true, 1, [some 1, none, some 3]⟩ 0 defaultTree).2
        = .exc .valueError) :=
  c9_bad_token_atomic ⟨true, 1, [some 1, none, some 3]⟩ 0 defaultTree (by simp)

/-- C10: a fresh artifact of more than 9 valid numeric tokens is accepted: the first
9 values are written into the tree in order, the validity flag is set true, the
excess tokens are ignored, and the loop exits successfully with no error. -/
theorem c10_excess_tokens_ignored (now mt : ℚ) (hmt : now ≤ mt)
    (v1 v2 v3 v4 v5 v6 v7 v8 v9 : ℚ) (extra : List ℚ) (hextra : extra ≠ [])
    (a1 a2 a3 b1 b2 b3 c1 c2 c3 : ℚ) (u valid w : Bool) (fe : FinalEnv) :
    (updateBoundingBox
        ⟨true, mt, (v1 :: v2 :: v3 :: v4 :: v5 :: v6 :: v7 :: v8 :: v9 :: extra).map some⟩
        now ⟨u, [[a1, a2, a3], [b1, b2, b3], [c1, c2, c3]], valid⟩
      = (⟨u, [[v1, v2, v3], [v4, v5, v6], [v7, v8, v9]], true⟩, .ret true)) ∧
    (run false now fe ⟨u, [[a1, a2, a3], [b1, b2, b3], [c1, c2, c3]], valid⟩
        [⟨⟨true, mt, (v1 :: v2 :: v3 :: v4 :: v5 :: v6 :: v7 :: v8 :: v9 :: extra).map some⟩, w⟩]
      = ⟨⟨u, [[v1, v2, v3], [v4, v5, v6], [v7, v8, v9]], true⟩,
          [.check false], .returned true⟩) := by
  have h1 : updateBoundingBox
      ⟨true, mt, some v1 :: some v2 :: some v3 :: some v4 :: some v5 :: some v6 ::
        some v7 :: some v8 :: some v9 :: extra.map some⟩
      now ⟨u, [[a1, a2, a3], [b1, b2, b3], [c1, c2, c3]], valid⟩
      = (⟨u, [[v1, v2, v3], [v4, v5, v6], [v7, v8, v9]], true⟩, .ret true) := by
    have hp : parseFloats (some v1 :: some v2 :: some v3 :: some v4 :: some v5 ::
        some v6 :: some v7 :: some v8 :: some v9 :: extra.map some)
        = some (v1 :: v2 :: v3 :: v4 :: v5 :: v6 :: v7 :: v8 :: v9 :: extra) := by
      simp [parseFloats, parseFloats_map_some]
    simp [updateBoundingBox, not_lt.2 hmt, hp, writeVecs, writeVec]
  refine ⟨by simpa using h1, ?_⟩
  simp [run, runLoop, h1]

/-- Witness for C10 at a concrete input (11 tokens). -/
theorem c10_excess_tokens_ignored_witness :
    (updateBoundingBox
        ⟨true, 1, ((1 : ℚ) :: 2 :: 3 :: 4 :: 5 :: 6 :: 7 :: 8 :: 9 :: [10, 11]).map some⟩
        0 defaultTree
      = (⟨false, [[1, 2, 3], [4, 5, 6], [7, 8, 9]], true⟩, .ret true)) ∧
    (run false 0 ⟨true, artEight⟩ defaultTree
        [⟨⟨true, 1, ((1 : ℚ) :: 2 :: 3 :: 4 :: 5 :: 6 :: 7 :: 8 :: 9 :: [10, 11]).map some⟩,
          false⟩]
      = ⟨⟨false, [[1, 2, 3], [4, 5, 6], [7, 8, 9]], true⟩,
          [.check false], .returned true⟩) :=
  c10_excess_tokens_ignored 0 1 (by norm_num) 1 2 3 4 5 6 7 8 9 [10, 11] (by simp)
    0 0 0 0 0 0 1 1 1 false false false ⟨true, artEight⟩

/-- C5: when the stop signal fires during the timed wait (and the check of that
iteration did not succeed): the loop's result no longer depends on the remaining
schedule; if the owning process is alive exactly one more check is performed — the
trace is the ordinary check followed by the single teardown check — and the loop
terminates whatever that attempt produced; if the owning process is gone the loop
exits at once, with no teardown check and the tree untouched. -/
theorem c5_stop_during_wait (now : ℚ) (e : PollEnv) (fe : FinalEnv)
    (t : NodeParameterTree) (rest : List PollEnv)
    (hnot : updateBoundingBox e.art now t = (t, .ret false))
    (hstop : e.stopDuringWait = true) :
    (runLoop false now fe t (e :: rest) = runLoop false now fe t [e]) ∧
    (fe.parentAlive = true →
      (runLoop false now fe t (e :: rest)).events = [.check false, .check true] ∧
      (runLoop false now fe t (e :: rest)).exit ≠ .outOfSchedule) ∧
    (fe.parentAlive = false →
      runLoop false now fe t (e :: rest) = ⟨t, [.check false], .stopped⟩) := by
  refine ⟨by simp [runLoop, hnot, hstop], ?_, ?_⟩
  · intro ha
    rcases h2 : updateBoundingBox fe.art now t with ⟨t2, o2⟩
    cases o2 <;> simp [runLoop, hnot, hstop, ha, h2]
  · intro ha
    simp [runLoop, hnot, hstop, ha]

/-- Witness for C5 at a concrete input (no artifact, process alive). -/
theorem c5_stop_during_wait_witness :
    (runLoop false 0 ⟨true, ⟨false, 0, []⟩⟩ defaultTree
        (⟨⟨false, 0, []⟩, true⟩ :: [⟨⟨false, 0, []⟩, false⟩])
      = runLoop false 0 ⟨true, ⟨false, 0, []⟩⟩ defaultTree [⟨⟨false, 0, []⟩, true⟩]) ∧
    ((true : Bool) = true →
      (runLoop false 0 ⟨true, ⟨false, 0, []⟩⟩ defaultTree
          (⟨⟨false, 0, []⟩, true⟩ :: [⟨⟨false, 0, []⟩, false⟩])).events
        = [.check false, .check true] ∧
      (runLoop false 0 ⟨true, ⟨false, 0, []⟩⟩ defaultTree
          (⟨⟨false, 0, []⟩, true⟩ :: [⟨⟨false, 0, []⟩, false⟩])).exit
        ≠ .outOfSchedule) ∧
    ((true : Bool) = false →
      runLoop false 0 ⟨true, ⟨false, 0, []⟩⟩ defaultTree
          (⟨⟨false, 0, []⟩, true⟩ :: [⟨⟨false, 0, []⟩, false⟩])
        = ⟨defaultTree, [.check false], .stopped⟩) :=
  c5_stop_during_wait 0 ⟨⟨false, 0, []⟩, true⟩ ⟨true, ⟨false, 0, []⟩⟩ defaultTree
    [⟨⟨false, 0, []⟩, false⟩]
    (updateBoundingBox_not_ready ⟨false, 0, []⟩ 0 defaultTree (Or.inl rfl)) rfl

/-- C6: in single-shot mode the loop performs exactly one check and returns — the
trace is a single non-teardown check, the stop path and further iterations are
never taken, and the result does not depend on the rest of the schedule or on the
stop signal; moreover the staleness rule is disabled (the baseline is the sentinel
-1), so a pre-existing valid artifact is accepted whatever its age. -/
theorem c6_single_shot (now : ℚ) (e : PollEnv) (fe : FinalEnv)
    (t : NodeParameterTree) (rest : List PollEnv) :
    ((run true now fe t (e :: rest)).events = [.check false]) ∧
    ((run true now fe t (e :: rest)).exit ≠ .stopped) ∧
    ((run true now fe t (e :: rest)).exit ≠ .outOfSchedule) ∧
    (run true now fe t (e :: rest) = run true now fe t [⟨e.art, false⟩]) ∧
    (∀ (mt v1 v2 v3 v4 v5 v6 v7 v8 v9 a1 a2 a3 b1 b2 b3 c1 c2 c3 : ℚ)
        (u valid w2 : Bool),
      0 ≤ mt →
      run true now fe ⟨u, [[a1, a2, a3], [b1, b2, b3], [c1, c2, c3]], valid⟩
          [⟨⟨true, mt, [some v1, some v2, some v3, some v4, some v5, some v6,
              some v7, some v8, some v9]⟩, w2⟩]
        = ⟨⟨u, [[v1, v2, v3], [v4, v5, v6], [v7, v8, v9]], true⟩,
            [.check false], .returned true⟩) := by
  rcases h1 : updateBoundingBox e.art (-1) t with ⟨t1, o1⟩
  have hmain : ∀ (o : Outcome) (t2 : NodeParameterTree),
      updateBoundingBox e.art (-1) t = (t2, o) →
      ∀ (tail : List PollEnv) (s : Bool),
        runLoop true (-1) fe t (⟨e.art, s⟩ :: tail)
          = ⟨t2, [.check false],
              match o with
              | .exc err => .uncaught err
              | .ret b => .returned b⟩ := by
    intro o t2 h2 tail s
    cases o with
    | exc err => simp [runLoop, h2]
    | ret b => cases b <;> simp [runLoop, h2]
  have he : runLoop true (-1) fe t (e :: rest)
      = runLoop true (-1) fe t (⟨e.art, e.stopDuringWait⟩ :: rest) := rfl
  refine ⟨?_, ?_, ?_, ?_, ?_⟩
  · rw [show run true now fe t (e :: rest) = runLoop true (-1) fe t (e :: rest) from rfl,
      he, hmain o1 t1 h1 rest e.stopDuringWait]
  · rw [show run true now fe t (e :: rest) = runLoop true (-1) fe t (e :: rest) from rfl,
      he, hmain o1 t1 h1 rest e.stopDuringWait]
    cases o1 <;> simp
  · rw [show run true now fe t (e :: rest) = runLoop true (-1) fe t (e :: rest) from rfl,
      he, hmain o1 t1 h1 rest e.stopDuringWait]
    cases o1 <;> simp
  · rw [show run true now fe t (e :: rest) = runLoop true (-1) fe t (e :: rest) from rfl,
      he, hmain o1 t1 h1 rest e.stopDuringWait,
      show run true now fe t [⟨e.art, false⟩] = runLoop true (-1) fe t [⟨e.art, false⟩] from rfl,
      hmain o1 t1 h1 [] false]
  · intro mt v1 v2 v3 v4 v5 v6 v7 v8 v9 a1 a2 a3 b1 b2 b3 c1 c2 c3 u valid w2 hmt
    have hle : (-1 : ℚ) ≤ mt := le_trans (by norm_num) hmt
    simp [run, runLoop, updateBoundingBox_nine mt (-1) hle]

/-- Witness for C6 at a concrete input (old artifact, modification time 0, loop
started at time 10). -/
theorem c6_single_shot_witness :
    run true 10 ⟨true, ⟨false, 0, []⟩⟩ defaultTree
        [⟨⟨true, 0, [some 1, some 2, some 3, some 4, some 5, some 6, some 7,
            some 8, some 9]⟩, false⟩]
      = ⟨⟨false, [[1, 2, 3], [4, 5, 6], [7, 8, 9]], true⟩,
          [.check false], .returned true⟩ :=
  (c6_single_shot 10
      ⟨⟨true, 0, [some 1, some 2, some 3, some 4, some 5, some 6, some 7,
        some 8, some 9]⟩, false⟩
      ⟨true, ⟨false, 0, []⟩⟩ defaultTree []).2.2.2.2
    0 1 2 3 4 5 6 7 8 9 0 0 0 0 0 0 1 1 1 false false false (by norm_num)

/-- C8: `stopRequest` is idempotent — a second call (whatever the flag's state)
gives the same flag state and cannot error, being a total function — and, for every
mode, baseline, teardown environment, tree and schedule, the loop performs at most
one teardown check per lifetime. -/
theorem c8_stop_request_idempotent :
    (∀ f : StopFlag, stopRequest (stopRequest f) = stopRequest f) ∧
    (∀ (co : Bool) (now : ℚ) (fe : FinalEnv) (t : NodeParameterTree)
        (envs : List PollEnv),
      finalChecks (run co now fe t envs).events ≤ 1) := by
  refine ⟨fun f => rfl, fun co now fe t envs => ?_⟩
  exact finalChecks_runLoop_le_one co (if co then -1 else now) fe envs t

/-- C2 counterexample: on an artifact of 8 numeric tokens (modification time 1,
baseline 0) the watcher does mutate NodeParameterTree — the first 8 leaves are
overwritten — and the failure escapes `run` as an uncaught IndexError instead of
being recorded as inspectable state. -/
theorem c2_malformed_artifact_counterexample :
    (updateBoundingBox artEight 0 defaultTree).1 ≠ defaultTree ∧
    (updateBoundingBox artEight 0 defaultTree).1.boundingBox
      = [[1, 2, 3], [4, 5, 6], [7, 8, 1]] ∧
    (run false 0 ⟨true, artEight⟩ defaultTree [⟨artEight, false⟩]).exit
      = .uncaught .indexError := by
  refine ⟨?_, ?_, ?_⟩ <;> decide

/-- C2 (amended): on a present, fresh, malformed artifact no error state is
recorded and the tree is not in general left untouched: with 8 numeric tokens the
first 8 leaves are overwritten in file order, the validity flag is left unchanged,
and an IndexError escapes `run` uncaught; with a non-numeric token the eager
conversion fails before any write — the tree is unchanged — and a ValueError
escapes `run` uncaught. -/
theorem c2_malformed_artifact_behavior (now mt : ℚ) (hmt : now ≤ mt)
    (v1 v2 v3 v4 v5 v6 v7 v8 a1 a2 a3 b1 b2 b3 c1 c2 c3 : ℚ)
    (u valid w : Bool) (fe : FinalEnv) :
    (run false now fe ⟨u, [[a1, a2, a3], [b1, b2, b3], [c1, c2, c3]], valid⟩
        [⟨⟨true, mt, [some v1, some v2, some v3, some v4, some v5, some v6,
            some v7, some v8]⟩, w⟩]
      = ⟨⟨u, [[v1, v2, v3], [v4, v5, v6], [v7, v8, c3]], valid⟩,
          [.check false], .uncaught .indexError⟩) ∧
    (∀ (toks : List Token) (t : NodeParameterTree), none ∈ toks →
      run false now fe t [⟨⟨true, mt, toks⟩, w⟩]
        = ⟨t, [.check false], .uncaught .valueError⟩) := by
  constructor
  · have h1 : updateBoundingBox
        ⟨true, mt, [some v1, some v2, some v3, some v4, some v5, some v6,
          some v7, some v8]⟩
        now ⟨u, [[a1, a2, a3], [b1, b2, b3], [c1, c2, c3]], valid⟩
        = (⟨u, [[v1, v2, v3], [v4, v5, v6], [v7, v8, c3]], valid⟩, .exc .indexError) := by
      simp [updateBoundingBox, not_lt.2 hmt, parseFloats, writeVecs, writeVec]
    simp [run, runLoop, h1]
  · intro toks t hb
    have h2 : updateBoundingBox ⟨true, mt, toks⟩ now t = (t, .exc .valueError) := by
      simp [updateBoundingBox, not_lt.2 hmt, parseFloats_of_none_mem toks hb]
    simp [run, runLoop, h2]

/-- Witness for the amended C2 at concrete inputs. -/
theorem c2_malformed_artifact_behavior_witness :
    (run false 0 ⟨true, artEight⟩ defaultTree [⟨artEight, false⟩]
      = ⟨⟨false, [[1, 2, 3], [4, 5, 6], [7, 8, 1]], false⟩,
          [.check false], .uncaught .indexError⟩) ∧
    (∀ (toks : List Token) (t : NodeParameterTree), none ∈ toks →
      run false 0 ⟨true, artEight⟩ t [⟨⟨true, 1, toks⟩, false⟩]
        = ⟨t, [.check false], .uncaught .valueError⟩) :=
  c2_malformed_artifact_behavior 0 1 (by norm_num) 1 2 3 4 5 6 7 8
    0 0 0 0 0 0 1 1 1 false false false ⟨true, artEight⟩

/-- C3: if a watcher is created (the manual-bounding-box flag is off), the guard
starts it strictly before any event of the wrapped operation and invokes
stop-request then join after the wrapped operation finishes, whatever outcome —
normal return, raised failure, or cancellation — the operation ends with; that
outcome is exactly what the guard yields to its caller. -/
theorem c3_guard_lifecycle (body : GuardWorld → GuardWorld × OpOutcome)
    (bodyLog : List GuardEvent) (out : OpOutcome) (w : GuardWorld)
    (hlog : ∀ u, (body u).1.log = u.log ++ bodyLog)
    (hout : ∀ u, (body u).2 = out) :
    (boundingBoxMonitor false body w).2.1 = true ∧
    (boundingBoxMonitor false body w).1.log
      = w.log ++ [.threadStart] ++ bodyLog ++ [.threadStopRequest, .threadJoin] ∧
    (boundingBoxMonitor false body w).2.2 = out := by
  refine ⟨rfl, ?_, hout _⟩
  simp [boundingBoxMonitor, startThread, stopRequestThread, joinThread, hlog]

/-- Witness for C3 at a concrete input: a body with one event that raises. -/
theorem c3_guard_lifecycle_witness :
    (boundingBoxMonitor false
        (fun u => ({ u with log := u.log ++ [.bodyEvent 7] }, .raised 3))
        ⟨[], defaultTree⟩).2.1 = true ∧
    (boundingBoxMonitor false
        (fun u => ({ u with log := u.log ++ [.bodyEvent 7] }, .raised 3))
        ⟨[], defaultTree⟩).1.log
      = [] ++ [.threadStart] ++ [.bodyEvent 7] ++ [.threadStopRequest, .threadJoin] ∧
    (boundingBoxMonitor false
        (fun u => ({ u with log := u.log ++ [.bodyEvent 7] }, .raised 3))
        ⟨[], defaultTree⟩).2.2 = .raised 3 :=
  c3_guard_lifecycle (fun u => ({ u with log := u.log ++ [.bodyEvent 7] }, .raised 3))
    [.bodyEvent 7] (.raised 3) ⟨[], defaultTree⟩ (fun _ => rfl) (fun _ => rfl)

/-- C7: when the node supplies the bounding box manually (the flag is on), the
guard creates no watcher: no thread lifecycle call is made, the world — in
particular NodeParameterTree — is exactly what the wrapped operation alone
produces, and the operation's outcome is passed through. -/
theorem c7_manual_bbox_no_watcher (body : GuardWorld → GuardWorld × OpOutcome)
    (bodyLog : List GuardEvent) (w : GuardWorld)
    (hlog : ∀ u, (body u).1.log = u.log ++ bodyLog) :
    (boundingBoxMonitor true body w).2.1 = false ∧
    (boundingBoxMonitor true body w).1 = (body w).1 ∧
    (boundingBoxMonitor true body w).1.tree = (body w).1.tree ∧
    (boundingBoxMonitor true body w).1.log = w.log ++ bodyLog ∧
    (boundingBoxMonitor true body w).2.2 = (body w).2 := by
  refine ⟨rfl, rfl, rfl, ?_, rfl⟩
  simpa [boundingBoxMonitor] using hlog w

/-- Witness for C7 at a concrete input. -/
theorem c7_manual_bbox_no_watcher_witness :
    (boundingBoxMonitor true
        (fun u => ({ u with log := u.log ++ [.bodyEvent 7] }, .normal))
        ⟨[], defaultTree⟩).2.1 = false ∧
    (boundingBoxMonitor true
        (fun u => ({ u with log := u.log ++ [.bodyEvent 7] }, .normal))
        ⟨[], defaultTree⟩).1
      = ⟨[GuardEvent.bodyEvent 7], defaultTree⟩ ∧
    (boundingBoxMonitor true
        (fun u => ({ u with log := u.log ++ [.bodyEvent 7] }, .normal))
        ⟨[], defaultTree⟩).1.tree = defaultTree ∧
    (boundingBoxMonitor true
        (fun u => ({ u with log := u.log ++ [.bodyEvent 7] }, .normal))
        ⟨[], defaultTree⟩).1.log = [] ++ [.bodyEvent 7] ∧
    (boundingBoxMonitor true
        (fun u => ({ u with log := u.log ++ [.bodyEvent 7] }, .normal))
        ⟨[], defaultTree⟩).2.2 = .normal :=
  c7_manual_bbox_no_watcher
    (fun u => ({ u with log := u.log ++ [.bodyEvent 7] }, .normal))
    [.bodyEvent 7] ⟨[], defaultTree⟩ (fun _ => rfl)

end Meshing
